import Mathlib

/-!
# Verification of the fuse3 session engine and notification encoder

A shallow embedding of the fuse3 library's session engine
(`src/session.rs`) and notification encoder (`src/notify.rs`).
Byte buffers are modelled as `List Nat` with every element below 256;
multi-byte integers are serialized little-endian, exactly as the
`bincode` configuration (`cfg.little_endian()`) used by the source.
Machine-integer wrap-around is made explicit with `% 2^w`.

Constants of the FUSE wire ABI (record sizes, flag bits, notification
codes, opcode numbers) live in the crate's `abi.rs`, which is not part
of the analysed sources; they are modelled from the specification's
data-model section and the Linux FUSE ABI it references.
-/

namespace Fuse3

set_option maxRecDepth 10000

/-! ## Little-endian byte encoding -/

/-- Encode the low `n` bytes of `x` little-endian (the fixed-int
little-endian layout produced by the source's `bincode` config). -/
def encLE : Nat → Nat → List Nat
  | 0, _ => []
  | n + 1, x => x % 256 :: encLE n (x / 256)

/-- Decode a little-endian byte list into a natural number. -/
def decLE : List Nat → Nat
  | [] => 0
  | b :: bs => b + 256 * decLE bs

@[simp]
theorem encLE_length (n x : Nat) : (encLE n x).length = n := by
  induction n generalizing x with
  | zero => rfl
  | succ n ih => simp [encLE, ih]

theorem decLE_encLE (n x : Nat) : decLE (encLE n x) = x % 256 ^ n := by
  induction n generalizing x with
  | zero => simp [encLE, decLE, Nat.mod_one]
  | succ n ih =>
    rw [pow_succ']
    simp only [encLE, decLE, ih]
    exact Nat.mod_mul.symm

theorem encLE_lt_256 (n x : Nat) : ∀ b ∈ encLE n x, b < 256 := by
  induction n generalizing x with
  | zero => simp [encLE]
  | succ n ih =>
    intro b hb
    simp only [encLE, List.mem_cons] at hb
    rcases hb with h | h
    · omega
    · exact ih _ b h

theorem decLE_append (l₁ l₂ : List Nat) :
    decLE (l₁ ++ l₂) = decLE l₁ + 256 ^ l₁.length * decLE l₂ := by
  induction l₁ with
  | nil => simp [decLE]
  | cons b bs ih =>
    simp only [List.cons_append, decLE, List.append_eq, ih, List.length_cons]
    ring

/-- Encode a signed 32-bit value (two's complement, little-endian), the
layout `bincode` gives an `i32` field. -/
def encI32 (x : Int) : List Nat :=
  encLE 4 (x % 2 ^ 32).toNat

/-- Decode 4 little-endian bytes as a signed 32-bit value. -/
def decI32 (l : List Nat) : Int :=
  if decLE l < 2 ^ 31 then (decLE l : Int) else (decLE l : Int) - 2 ^ 32

/-! ## Wire headers

`fuse_out_header { len: u32, error: i32, unique: u64 }`, 16 bytes
(`FUSE_OUT_HEADER_SIZE`), serialized little-endian by `bincode`. -/

/-- The outbound wire header of `abi.rs` (`fuse_out_header`). -/
structure fuse_out_header where
  len : Nat
  error : Int
  unique : Nat
deriving Repr, DecidableEq

/-- `FUSE_OUT_HEADER_SIZE`: compile-time size of `fuse_out_header`. -/
def FUSE_OUT_HEADER_SIZE : Nat := 16

/-- Serialize a `fuse_out_header` (little-endian `bincode`, as both
`notify.rs` and `session.rs` do with `BINARY.serialize_into`). -/
def serializeOutHeader (h : fuse_out_header) : List Nat :=
  encLE 4 h.len ++ encI32 h.error ++ encLE 8 h.unique

/-- Decode the first 16 bytes of a buffer as a `fuse_out_header`. -/
def decodeOutHeader (l : List Nat) : fuse_out_header :=
  { len := decLE (l.take 4)
    error := decI32 ((l.drop 4).take 4)
    unique := decLE ((l.drop 8).take 8) }

@[simp]
theorem serializeOutHeader_length (h : fuse_out_header) :
    (serializeOutHeader h).length = FUSE_OUT_HEADER_SIZE := by
  simp [serializeOutHeader, encI32, FUSE_OUT_HEADER_SIZE]

/-- The in-process request record of `request.rs`, built by
`Request::from(&in_header)`. -/
structure Request where
  unique : Nat
  uid : Nat
  gid : Nat
  pid : Nat
deriving Repr, DecidableEq

/-! ## Notification encoder (`src/notify.rs`)

`NotifyKind` and `Notify::notify`.  The record layouts and the
`fuse_notify_code` values come from `abi.rs` (absent from the analysed
sources); they are modelled from the spec's notification table and the
Linux FUSE ABI: `FUSE_POLL = 1`, `FUSE_NOTIFY_INVAL_INODE = 2`,
`FUSE_NOTIFY_INVAL_ENTRY = 3`, `FUSE_NOTIFY_STORE = 4`,
`FUSE_NOTIFY_RETRIEVE = 5`, `FUSE_NOTIFY_DELETE = 6`. -/

/-- `NotifyKind` of `notify.rs`; names and data are byte lists. -/
inductive NotifyKind where
  | Wakeup (kh : Nat)
  | InvalidInode (inode : Nat) (offset lenArg : Int)
  | InvalidEntry (parent : Nat) (name : List Nat)
  | Delete (parent child : Nat) (name : List Nat)
  | Store (inode offset : Nat) (data : List Nat)
  | Retrieve (notify_unique inode offset size : Nat)
deriving Repr, DecidableEq

/-- Modelled from the spec: `fuse_notify_code::FUSE_POLL`. -/
def FUSE_POLL : Int := 1
/-- Modelled from the spec: `fuse_notify_code::FUSE_NOTIFY_INVAL_INODE`. -/
def FUSE_NOTIFY_INVAL_INODE : Int := 2
/-- Modelled from the spec: `fuse_notify_code::FUSE_NOTIFY_INVAL_ENTRY`. -/
def FUSE_NOTIFY_INVAL_ENTRY : Int := 3
/-- Modelled from the spec: `fuse_notify_code::FUSE_NOTIFY_STORE`. -/
def FUSE_NOTIFY_STORE : Int := 4
/-- Modelled from the spec: `fuse_notify_code::FUSE_NOTIFY_RETRIEVE`. -/
def FUSE_NOTIFY_RETRIEVE : Int := 5
/-- Modelled from the spec: `fuse_notify_code::FUSE_NOTIFY_DELETE`. -/
def FUSE_NOTIFY_DELETE : Int := 6

/-- Modelled from the spec: size of `fuse_notify_poll_wakeup_out`
(`kh: u64`). -/
def FUSE_NOTIFY_POLL_WAKEUP_OUT_SIZE : Nat := 8
/-- Modelled from the spec: size of `fuse_notify_inval_inode_out`
(`ino: u64, off: i64, len: i64`). -/
def FUSE_NOTIFY_INVAL_INODE_OUT_SIZE : Nat := 24
/-- Modelled from the spec: size of `fuse_notify_inval_entry_out`
(`parent: u64, namelen: u32, padding: u32`). -/
def FUSE_NOTIFY_INVAL_ENTRY_OUT_SIZE : Nat := 16
/-- Modelled from the spec: size of `fuse_notify_delete_out`
(`parent: u64, child: u64, namelen: u32, padding: u32`). -/
def FUSE_NOTIFY_DELETE_OUT_SIZE : Nat := 24
/-- Modelled from the spec: size of `fuse_notify_store_out`
(`nodeid: u64, offset: u64, size: u32, padding: u32`). -/
def FUSE_NOTIFY_STORE_OUT_SIZE : Nat := 24
/-- Modelled from the spec: size of `fuse_notify_retrieve_out`
(`notify_unique: u64, nodeid: u64, offset: u64, size: u32,
padding: u32`). -/
def FUSE_NOTIFY_RETRIEVE_OUT_SIZE : Nat := 32

/-- Encode a signed 64-bit value (two's complement, little-endian). -/
def encI64 (x : Int) : List Nat :=
  encLE 8 (x % 2 ^ 64).toNat

/-- The buffer `Notify::notify` builds for a `NotifyKind` before sending
it into the reply channel (`notify.rs` lines 42-225), field by field. -/
def notifyEncode : NotifyKind → List Nat
  | .Wakeup kh =>
    serializeOutHeader
      { len := (FUSE_OUT_HEADER_SIZE + FUSE_NOTIFY_POLL_WAKEUP_OUT_SIZE) % 2 ^ 32
        error := FUSE_POLL
        unique := 0 }
      ++ encLE 8 kh
  | .InvalidInode inode offset lenArg =>
    serializeOutHeader
      { len := (FUSE_OUT_HEADER_SIZE + FUSE_NOTIFY_INVAL_INODE_OUT_SIZE) % 2 ^ 32
        error := FUSE_NOTIFY_INVAL_INODE
        unique := 0 }
      ++ encLE 8 inode ++ encI64 offset ++ encI64 lenArg
  | .InvalidEntry parent name =>
    serializeOutHeader
      { len := (FUSE_OUT_HEADER_SIZE + FUSE_NOTIFY_INVAL_ENTRY_OUT_SIZE) % 2 ^ 32
        error := FUSE_NOTIFY_INVAL_ENTRY
        unique := 0 }
      ++ encLE 8 parent ++ encLE 4 name.length ++ encLE 4 0
      ++ name
  | .Delete parent child name =>
    serializeOutHeader
      { len := (FUSE_OUT_HEADER_SIZE + FUSE_NOTIFY_DELETE_OUT_SIZE) % 2 ^ 32
        error := FUSE_NOTIFY_DELETE
        unique := 0 }
      ++ encLE 8 parent ++ encLE 8 child ++ encLE 4 name.length ++ encLE 4 0
      ++ name
  | .Store inode offset data =>
    serializeOutHeader
      { len := (FUSE_OUT_HEADER_SIZE + FUSE_NOTIFY_STORE_OUT_SIZE) % 2 ^ 32
        error := FUSE_NOTIFY_STORE
        unique := 0 }
      ++ encLE 8 inode ++ encLE 8 offset ++ encLE 4 data.length ++ encLE 4 0
      ++ data
  | .Retrieve notify_unique inode offset size =>
    serializeOutHeader
      { len := (FUSE_OUT_HEADER_SIZE + FUSE_NOTIFY_RETRIEVE_OUT_SIZE) % 2 ^ 32
        error := FUSE_NOTIFY_RETRIEVE
        unique := 0 }
      ++ encLE 8 notify_unique ++ encLE 8 inode ++ encLE 8 offset
      ++ encLE 4 size ++ encLE 4 0

/-- The notification code `Notify::notify` places in the header's
`error` field, per `NotifyKind` arm. -/
def notificationCode : NotifyKind → Int
  | .Wakeup _ => FUSE_POLL
  | .InvalidInode .. => FUSE_NOTIFY_INVAL_INODE
  | .InvalidEntry .. => FUSE_NOTIFY_INVAL_ENTRY
  | .Delete .. => FUSE_NOTIFY_DELETE
  | .Store .. => FUSE_NOTIFY_STORE
  | .Retrieve .. => FUSE_NOTIFY_RETRIEVE

/-! ## Mount options and INIT flag negotiation (`session.rs` lines 346-501)

The flag bit values come from `abi.rs` (absent); modelled from the
spec's INIT negotiation list and the Linux FUSE ABI (`1 << n`). -/

/-- The negotiation-relevant fields of `MountOptions` (the source's
struct also carries `nonempty`, `fs_name`, … which the dispatcher never
reads). -/
structure MountOptions where
  dont_mask : Bool := false
  force_readdir_plus : Bool := false
  write_back : Bool := false
  no_open_support : Bool := false
  handle_killpriv : Bool := false
  default_permissions : Bool := false
  no_open_dir_support : Bool := false
deriving Repr, DecidableEq

/-- Modelled from the spec: `FUSE_ASYNC_READ` (`1 << 0`). -/
def FUSE_ASYNC_READ : Nat := 1
/-- Modelled from the spec: `FUSE_POSIX_LOCKS` (`1 << 1`). -/
def FUSE_POSIX_LOCKS : Nat := 2
/-- Modelled from the spec: `FUSE_FILE_OPS` (`1 << 2`). -/
def FUSE_FILE_OPS : Nat := 4
/-- Modelled from the spec: `FUSE_ATOMIC_O_TRUNC` (`1 << 3`). -/
def FUSE_ATOMIC_O_TRUNC : Nat := 8
/-- Modelled from the spec: `FUSE_EXPORT_SUPPORT` (`1 << 4`). -/
def FUSE_EXPORT_SUPPORT : Nat := 16
/-- Modelled from the spec: `FUSE_BIG_WRITES` (`1 << 5`). -/
def FUSE_BIG_WRITES : Nat := 32
/-- Modelled from the spec: `FUSE_DONT_MASK` (`1 << 6`). -/
def FUSE_DONT_MASK : Nat := 64
/-- Modelled from the spec: `FUSE_SPLICE_WRITE` (`1 << 7`). -/
def FUSE_SPLICE_WRITE : Nat := 128
/-- Modelled from the spec: `FUSE_SPLICE_MOVE` (`1 << 8`). -/
def FUSE_SPLICE_MOVE : Nat := 256
/-- Modelled from the spec: `FUSE_SPLICE_READ` (`1 << 9`). -/
def FUSE_SPLICE_READ : Nat := 512
/-- Modelled from the spec: `FUSE_AUTO_INVAL_DATA` (`1 << 12`). -/
def FUSE_AUTO_INVAL_DATA : Nat := 4096
/-- Modelled from the spec: `FUSE_DO_READDIRPLUS` (`1 << 13`). -/
def FUSE_DO_READDIRPLUS : Nat := 8192
/-- Modelled from the spec: `FUSE_READDIRPLUS_AUTO` (`1 << 14`). -/
def FUSE_READDIRPLUS_AUTO : Nat := 16384
/-- Modelled from the spec: `FUSE_ASYNC_DIO` (`1 << 15`). -/
def FUSE_ASYNC_DIO : Nat := 32768
/-- Modelled from the spec: `FUSE_WRITEBACK_CACHE` (`1 << 16`). -/
def FUSE_WRITEBACK_CACHE : Nat := 65536
/-- Modelled from the spec: `FUSE_NO_OPEN_SUPPORT` (`1 << 17`). -/
def FUSE_NO_OPEN_SUPPORT : Nat := 131072
/-- Modelled from the spec: `FUSE_PARALLEL_DIROPS` (`1 << 18`). -/
def FUSE_PARALLEL_DIROPS : Nat := 262144
/-- Modelled from the spec: `FUSE_HANDLE_KILLPRIV` (`1 << 19`). -/
def FUSE_HANDLE_KILLPRIV : Nat := 524288
/-- Modelled from the spec: `FUSE_POSIX_ACL` (`1 << 20`). -/
def FUSE_POSIX_ACL : Nat := 1048576
/-- Modelled from the spec: `FUSE_MAX_PAGES` (`1 << 22`). -/
def FUSE_MAX_PAGES : Nat := 4194304
/-- Modelled from the spec: `FUSE_CACHE_SYMLINKS` (`1 << 23`). -/
def FUSE_CACHE_SYMLINKS : Nat := 8388608
/-- Modelled from the spec: `FUSE_NO_OPENDIR_SUPPORT` (`1 << 24`). -/
def FUSE_NO_OPENDIR_SUPPORT : Nat := 16777216

/-- One `if cond { reply_flags |= flag }` step of the negotiation. -/
def orIf (c : Bool) (flag r : Nat) : Nat := if c then r ||| flag else r

/-- The `reply_flags` value `Session::dispatch` accumulates for
`FUSE_INIT` (`session.rs` lines 346-501).  `fileLock` stands for the
`file-lock` cargo feature guarding the `FUSE_POSIX_LOCKS` block. -/
def negotiateInitFlags (fileLock : Bool) (flags : Nat) (o : MountOptions) : Nat :=
  (0 : Nat)
  |> orIf (decide (0 < flags &&& FUSE_ASYNC_READ)) FUSE_ASYNC_READ
  |> orIf (fileLock && decide (0 < flags &&& FUSE_POSIX_LOCKS)) FUSE_POSIX_LOCKS
  |> orIf (decide (0 < flags &&& FUSE_FILE_OPS)) FUSE_FILE_OPS
  |> orIf (decide (0 < flags &&& FUSE_ATOMIC_O_TRUNC)) FUSE_ATOMIC_O_TRUNC
  |> orIf (decide (0 < flags &&& FUSE_EXPORT_SUPPORT)) FUSE_EXPORT_SUPPORT
  |> orIf (decide (0 < flags &&& FUSE_BIG_WRITES)) FUSE_BIG_WRITES
  |> orIf (decide (0 < flags &&& FUSE_DONT_MASK) && o.dont_mask) FUSE_DONT_MASK
  |> orIf (decide (0 < flags &&& FUSE_SPLICE_WRITE)) FUSE_SPLICE_WRITE
  |> orIf (decide (0 < flags &&& FUSE_SPLICE_MOVE)) FUSE_SPLICE_MOVE
  |> orIf (decide (0 < flags &&& FUSE_SPLICE_READ)) FUSE_SPLICE_READ
  |> orIf (decide (0 < flags &&& FUSE_AUTO_INVAL_DATA)) FUSE_AUTO_INVAL_DATA
  |> orIf (decide (0 < flags &&& FUSE_DO_READDIRPLUS) || o.force_readdir_plus)
      FUSE_DO_READDIRPLUS
  |> orIf (decide (0 < flags &&& FUSE_READDIRPLUS_AUTO) && !o.force_readdir_plus)
      FUSE_READDIRPLUS_AUTO
  |> orIf (decide (0 < flags &&& FUSE_ASYNC_DIO)) FUSE_ASYNC_DIO
  |> orIf (decide (0 < flags &&& FUSE_WRITEBACK_CACHE) && o.write_back)
      FUSE_WRITEBACK_CACHE
  |> orIf (decide (0 < flags &&& FUSE_NO_OPEN_SUPPORT) && o.no_open_support)
      FUSE_NO_OPEN_SUPPORT
  |> orIf (decide (0 < flags &&& FUSE_PARALLEL_DIROPS)) FUSE_PARALLEL_DIROPS
  |> orIf (decide (0 < flags &&& FUSE_HANDLE_KILLPRIV) && o.handle_killpriv)
      FUSE_HANDLE_KILLPRIV
  |> orIf (decide (0 < flags &&& FUSE_POSIX_ACL) && o.default_permissions)
      FUSE_POSIX_ACL
  |> orIf (decide (0 < flags &&& FUSE_MAX_PAGES)) FUSE_MAX_PAGES
  |> orIf (decide (0 < flags &&& FUSE_CACHE_SYMLINKS)) FUSE_CACHE_SYMLINKS
  |> orIf (decide (0 < flags &&& FUSE_NO_OPENDIR_SUPPORT) && o.no_open_dir_support)
      FUSE_NO_OPENDIR_SUPPORT

theorem testBit_orIf (c : Bool) (f r k : Nat) :
    (orIf c f r).testBit k = ((c && f.testBit k) || r.testBit k) := by
  cases c <;> simp [orIf, Nat.testBit_lor, Bool.or_comm]

theorem and_ne_zero_iff_testBit (F k : Nat) (h : F = 2 ^ k) (x : Nat) :
    x &&& F ≠ 0 ↔ x.testBit k := by
  subst h
  rw [Nat.and_two_pow]
  cases hx : x.testBit k <;> simp

theorem pos_and_iff_testBit (F k : Nat) (h : F = 2 ^ k) (x : Nat) :
    (0 < x &&& F) ↔ x.testBit k := by
  rw [Nat.pos_iff_ne_zero]
  exact and_ne_zero_iff_testBit F k h x

/-! ## Theorems for C1 and C2 -/

/-- C1: the claim states that for every `NotifyKind` the encoded
buffer's 16-byte header has `len` equal to the total number of bytes in
the buffer.  The code violates this for kinds with trailing bytes: for
`InvalidEntry { parent: 1, name: "a" }` the buffer is 33 bytes long but
its header records `len = 32` (the header plus `fuse_notify_inval_entry_out`
only, `notify.rs` line 94); `error` and `unique` do hold. -/
theorem C1_notify_invalid_entry_len_mismatch :
    (notifyEncode (.InvalidEntry 1 [97])).length = 33 ∧
    (decodeOutHeader (notifyEncode (.InvalidEntry 1 [97]))).len = 32 ∧
    (decodeOutHeader (notifyEncode (.InvalidEntry 1 [97]))).error =
      notificationCode (.InvalidEntry 1 [97]) ∧
    (decodeOutHeader (notifyEncode (.InvalidEntry 1 [97]))).unique = 0 := by
  decide

/-- C2 counterexample: with `force_readdir_plus` set, the INIT reply
carries `FUSE_DO_READDIRPLUS` even though the kernel offered no flag at
all (`init_in.flags = 0`), contradicting "reply.flags & F ≠ 0 only if
the kernel offered F" (`session.rs` lines 426-432). -/
theorem C2_counterexample_force_readdirplus_not_offered :
    negotiateInitFlags false 0 { force_readdir_plus := true } &&&
      FUSE_DO_READDIRPLUS ≠ 0 ∧
    0 &&& FUSE_DO_READDIRPLUS = 0 := by
  decide

/-- C2 (amended): for every negotiated flag except
`FUSE_DO_READDIRPLUS`, the INIT reply carries the flag iff the kernel
offered it, the library supports it (`file-lock` feature for
`FUSE_POSIX_LOCKS`) and its mount-option gate is enabled
(`FUSE_READDIRPLUS_AUTO`'s gate being that `force_readdir_plus` is
unset); `FUSE_DO_READDIRPLUS` is carried iff the kernel offered it OR
`force_readdir_plus` is set. -/
theorem C2_init_negotiation_per_flag (fl : Bool) (flags : Nat) (o : MountOptions) :
    (negotiateInitFlags fl flags o &&& FUSE_ASYNC_READ ≠ 0 ↔
      flags &&& FUSE_ASYNC_READ ≠ 0) ∧
    (negotiateInitFlags fl flags o &&& FUSE_POSIX_LOCKS ≠ 0 ↔
      (fl = true ∧ flags &&& FUSE_POSIX_LOCKS ≠ 0)) ∧
    (negotiateInitFlags fl flags o &&& FUSE_FILE_OPS ≠ 0 ↔
      flags &&& FUSE_FILE_OPS ≠ 0) ∧
    (negotiateInitFlags fl flags o &&& FUSE_ATOMIC_O_TRUNC ≠ 0 ↔
      flags &&& FUSE_ATOMIC_O_TRUNC ≠ 0) ∧
    (negotiateInitFlags fl flags o &&& FUSE_EXPORT_SUPPORT ≠ 0 ↔
      flags &&& FUSE_EXPORT_SUPPORT ≠ 0) ∧
    (negotiateInitFlags fl flags o &&& FUSE_BIG_WRITES ≠ 0 ↔
      flags &&& FUSE_BIG_WRITES ≠ 0) ∧
    (negotiateInitFlags fl flags o &&& FUSE_DONT_MASK ≠ 0 ↔
      (flags &&& FUSE_DONT_MASK ≠ 0 ∧ o.dont_mask = true)) ∧
    (negotiateInitFlags fl flags o &&& FUSE_SPLICE_WRITE ≠ 0 ↔
      flags &&& FUSE_SPLICE_WRITE ≠ 0) ∧
    (negotiateInitFlags fl flags o &&& FUSE_SPLICE_MOVE ≠ 0 ↔
      flags &&& FUSE_SPLICE_MOVE ≠ 0) ∧
    (negotiateInitFlags fl flags o &&& FUSE_SPLICE_READ ≠ 0 ↔
      flags &&& FUSE_SPLICE_READ ≠ 0) ∧
    (negotiateInitFlags fl flags o &&& FUSE_AUTO_INVAL_DATA ≠ 0 ↔
      flags &&& FUSE_AUTO_INVAL_DATA ≠ 0) ∧
    (negotiateInitFlags fl flags o &&& FUSE_DO_READDIRPLUS ≠ 0 ↔
      (flags &&& FUSE_DO_READDIRPLUS ≠ 0 ∨ o.force_readdir_plus = true)) ∧
    (negotiateInitFlags fl flags o &&& FUSE_READDIRPLUS_AUTO ≠ 0 ↔
      (flags &&& FUSE_READDIRPLUS_AUTO ≠ 0 ∧ o.force_readdir_plus = false)) ∧
    (negotiateInitFlags fl flags o &&& FUSE_ASYNC_DIO ≠ 0 ↔
      flags &&& FUSE_ASYNC_DIO ≠ 0) ∧
    (negotiateInitFlags fl flags o &&& FUSE_WRITEBACK_CACHE ≠ 0 ↔
      (flags &&& FUSE_WRITEBACK_CACHE ≠ 0 ∧ o.write_back = true)) ∧
    (negotiateInitFlags fl flags o &&& FUSE_NO_OPEN_SUPPORT ≠ 0 ↔
      (flags &&& FUSE_NO_OPEN_SUPPORT ≠ 0 ∧ o.no_open_support = true)) ∧
    (negotiateInitFlags fl flags o &&& FUSE_PARALLEL_DIROPS ≠ 0 ↔
      flags &&& FUSE_PARALLEL_DIROPS ≠ 0) ∧
    (negotiateInitFlags fl flags o &&& FUSE_HANDLE_KILLPRIV ≠ 0 ↔
      (flags &&& FUSE_HANDLE_KILLPRIV ≠ 0 ∧ o.handle_killpriv = true)) ∧
    (negotiateInitFlags fl flags o &&& FUSE_POSIX_ACL ≠ 0 ↔
      (flags &&& FUSE_POSIX_ACL ≠ 0 ∧ o.default_permissions = true)) ∧
    (negotiateInitFlags fl flags o &&& FUSE_MAX_PAGES ≠ 0 ↔
      flags &&& FUSE_MAX_PAGES ≠ 0) ∧
    (negotiateInitFlags fl flags o &&& FUSE_CACHE_SYMLINKS ≠ 0 ↔
      flags &&& FUSE_CACHE_SYMLINKS ≠ 0) ∧
    (negotiateInitFlags fl flags o &&& FUSE_NO_OPENDIR_SUPPORT ≠ 0 ↔
      (flags &&& FUSE_NO_OPENDIR_SUPPORT ≠ 0 ∧ o.no_open_dir_support = true)) := by
  refine ⟨?_, ?_, ?_, ?_, ?_, ?_, ?_, ?_, ?_, ?_, ?_, ?_, ?_, ?_, ?_, ?_,
    ?_, ?_, ?_, ?_, ?_, ?_⟩
  · simp only [and_ne_zero_iff_testBit FUSE_ASYNC_READ 0 (by decide)]
    simp only [negotiateInitFlags, testBit_orIf]
    simp +decide [pos_and_iff_testBit FUSE_ASYNC_READ 0 (by decide)]
  · simp only [and_ne_zero_iff_testBit FUSE_POSIX_LOCKS 1 (by decide)]
    simp +decide [negotiateInitFlags, testBit_orIf,
      pos_and_iff_testBit FUSE_POSIX_LOCKS 1 (by decide)]
  · simp only [and_ne_zero_iff_testBit FUSE_FILE_OPS 2 (by decide)]
    simp +decide [negotiateInitFlags, testBit_orIf,
      pos_and_iff_testBit FUSE_FILE_OPS 2 (by decide)]
  · simp only [and_ne_zero_iff_testBit FUSE_ATOMIC_O_TRUNC 3 (by decide)]
    simp +decide [negotiateInitFlags, testBit_orIf,
      pos_and_iff_testBit FUSE_ATOMIC_O_TRUNC 3 (by decide)]
  · simp only [and_ne_zero_iff_testBit FUSE_EXPORT_SUPPORT 4 (by decide)]
    simp +decide [negotiateInitFlags, testBit_orIf,
      pos_and_iff_testBit FUSE_EXPORT_SUPPORT 4 (by decide)]
  · simp only [and_ne_zero_iff_testBit FUSE_BIG_WRITES 5 (by decide)]
    simp +decide [negotiateInitFlags, testBit_orIf,
      pos_and_iff_testBit FUSE_BIG_WRITES 5 (by decide)]
  · simp only [and_ne_zero_iff_testBit FUSE_DONT_MASK 6 (by decide)]
    simp +decide [negotiateInitFlags, testBit_orIf,
      pos_and_iff_testBit FUSE_DONT_MASK 6 (by decide)]
  · simp only [and_ne_zero_iff_testBit FUSE_SPLICE_WRITE 7 (by decide)]
    simp +decide [negotiateInitFlags, testBit_orIf,
      pos_and_iff_testBit FUSE_SPLICE_WRITE 7 (by decide)]
  · simp only [and_ne_zero_iff_testBit FUSE_SPLICE_MOVE 8 (by decide)]
    simp +decide [negotiateInitFlags, testBit_orIf,
      pos_and_iff_testBit FUSE_SPLICE_MOVE 8 (by decide)]
  · simp only [and_ne_zero_iff_testBit FUSE_SPLICE_READ 9 (by decide)]
    simp +decide [negotiateInitFlags, testBit_orIf,
      pos_and_iff_testBit FUSE_SPLICE_READ 9 (by decide)]
  · simp only [and_ne_zero_iff_testBit FUSE_AUTO_INVAL_DATA 12 (by decide)]
    simp +decide [negotiateInitFlags, testBit_orIf,
      pos_and_iff_testBit FUSE_AUTO_INVAL_DATA 12 (by decide)]
  · simp only [and_ne_zero_iff_testBit FUSE_DO_READDIRPLUS 13 (by decide)]
    simp +decide [negotiateInitFlags, testBit_orIf,
      pos_and_iff_testBit FUSE_DO_READDIRPLUS 13 (by decide)]
  · simp only [and_ne_zero_iff_testBit FUSE_READDIRPLUS_AUTO 14 (by decide)]
    simp +decide [negotiateInitFlags, testBit_orIf,
      pos_and_iff_testBit FUSE_READDIRPLUS_AUTO 14 (by decide)]
  · simp only [and_ne_zero_iff_testBit FUSE_ASYNC_DIO 15 (by decide)]
    simp +decide [negotiateInitFlags, testBit_orIf,
      pos_and_iff_testBit FUSE_ASYNC_DIO 15 (by decide)]
  · simp only [and_ne_zero_iff_testBit FUSE_WRITEBACK_CACHE 16 (by decide)]
    simp +decide [negotiateInitFlags, testBit_orIf,
      pos_and_iff_testBit FUSE_WRITEBACK_CACHE 16 (by decide)]
  · simp only [and_ne_zero_iff_testBit FUSE_NO_OPEN_SUPPORT 17 (by decide)]
    simp +decide [negotiateInitFlags, testBit_orIf,
      pos_and_iff_testBit FUSE_NO_OPEN_SUPPORT 17 (by decide)]
  · simp only [and_ne_zero_iff_testBit FUSE_PARALLEL_DIROPS 18 (by decide)]
    simp +decide [negotiateInitFlags, testBit_orIf,
      pos_and_iff_testBit FUSE_PARALLEL_DIROPS 18 (by decide)]
  · simp only [and_ne_zero_iff_testBit FUSE_HANDLE_KILLPRIV 19 (by decide)]
    simp +decide [negotiateInitFlags, testBit_orIf,
      pos_and_iff_testBit FUSE_HANDLE_KILLPRIV 19 (by decide)]
  · simp only [and_ne_zero_iff_testBit FUSE_POSIX_ACL 20 (by decide)]
    simp +decide [negotiateInitFlags, testBit_orIf,
      pos_and_iff_testBit FUSE_POSIX_ACL 20 (by decide)]
  · simp only [and_ne_zero_iff_testBit FUSE_MAX_PAGES 22 (by decide)]
    simp +decide [negotiateInitFlags, testBit_orIf,
      pos_and_iff_testBit FUSE_MAX_PAGES 22 (by decide)]
  · simp only [and_ne_zero_iff_testBit FUSE_CACHE_SYMLINKS 23 (by decide)]
    simp +decide [negotiateInitFlags, testBit_orIf,
      pos_and_iff_testBit FUSE_CACHE_SYMLINKS 23 (by decide)]
  · simp only [and_ne_zero_iff_testBit FUSE_NO_OPENDIR_SUPPORT 24 (by decide)]
    simp +decide [negotiateInitFlags, testBit_orIf,
      pos_and_iff_testBit FUSE_NO_OPENDIR_SUPPORT 24 (by decide)]

/-! ## Round-trip lemmas for the outbound header -/

theorem decLE_lt (l : List Nat) (h : ∀ b ∈ l, b < 256) :
    decLE l < 256 ^ l.length := by
  induction l with
  | nil => simp [decLE]
  | cons b bs ih =>
    have hb : b < 256 := h b (List.mem_cons_self b bs)
    have hbs : decLE bs < 256 ^ bs.length := ih fun x hx => h x (List.mem_cons_of_mem b hx)
    simp only [decLE, List.length_cons]
    calc b + 256 * decLE bs < 256 + 256 * decLE bs := by omega
    _ = 256 * (decLE bs + 1) := by ring
    _ ≤ 256 * 256 ^ bs.length := by
        have : decLE bs + 1 ≤ 256 ^ bs.length := hbs
        exact Nat.mul_le_mul_left 256 this
    _ = 256 ^ (bs.length + 1) := by rw [pow_succ]; ring

theorem decI32_encI32 (x : Int) (h₁ : -(2 ^ 31) ≤ x) (h₂ : x < 2 ^ 31) :
    decI32 (encI32 x) = x := by
  unfold decI32 encI32
  rw [decLE_encLE, show (256 : Nat) ^ 4 = 2 ^ 32 from by norm_num]
  split <;> omega

theorem decodeOutHeader_round (h : fuse_out_header) (rest : List Nat)
    (hlen : h.len < 2 ^ 32) (herr₁ : -(2 ^ 31) ≤ h.error) (herr₂ : h.error < 2 ^ 31)
    (huniq : h.unique < 2 ^ 64) :
    decodeOutHeader (serializeOutHeader h ++ rest) = h := by
  unfold decodeOutHeader serializeOutHeader
  have e4 : (encLE 4 h.len).length = 4 := encLE_length 4 h.len
  have ei : (encI32 h.error).length = 4 := encLE_length 4 _
  have e8 : (encLE 8 h.unique).length = 8 := encLE_length 8 h.unique
  have htake : ((encLE 4 h.len ++ encI32 h.error ++ encLE 8 h.unique) ++ rest).take 4
      = encLE 4 h.len := by
    rw [List.append_assoc, List.append_assoc, List.take_left' e4]
  have hdrop4 : ((encLE 4 h.len ++ encI32 h.error ++ encLE 8 h.unique) ++ rest).drop 4
      = encI32 h.error ++ (encLE 8 h.unique ++ rest) := by
    rw [List.append_assoc, List.append_assoc, List.drop_left' e4]
  have hdrop8 : ((encLE 4 h.len ++ encI32 h.error ++ encLE 8 h.unique) ++ rest).drop 8
      = encLE 8 h.unique ++ rest := by
    rw [List.append_assoc, List.append_assoc]
    rw [show (8 : Nat) = 4 + 4 by norm_num, ← List.drop_drop, List.drop_left' e4,
      List.drop_left' ei]
  rw [htake, hdrop4, hdrop8]
  have h1 : decLE (encLE 4 h.len) = h.len := by
    rw [decLE_encLE]; exact Nat.mod_eq_of_lt (by norm_num; omega)
  have h2 : (encI32 h.error ++ (encLE 8 h.unique ++ rest)).take 4 = encI32 h.error :=
    List.take_left' ei
  have h3 : (encLE 8 h.unique ++ rest).take 8 = encLE 8 h.unique := List.take_left' e8
  have h4 : decLE (encLE 8 h.unique) = h.unique := by
    rw [decLE_encLE]; exact Nat.mod_eq_of_lt (by norm_num; omega)
  rw [h1, h2, h3, h4, decI32_encI32 h.error herr₁ herr₂]

/-! ## Errno constants (libc values used by `session.rs`) -/

/-- `libc::ENOENT`. -/
def ENOENT : Nat := 2
/-- `libc::ENODEV`. -/
def ENODEV : Nat := 19
/-- `libc::EINVAL`. -/
def EINVAL : Nat := 22
/-- `libc::ERANGE`. -/
def ERANGE : Nat := 34
/-- `libc::ENOSYS`. -/
def ENOSYS : Nat := 38

/-- Modelled from the spec: the header-only error reply built by
`reply_error` / `reply_error_in_place` (`session.rs` lines 3337-3357).
The `Errno`-to-`i32` conversion lives outside the analysed sources; the
spec fixes it: handler errors "surface as negative errno in
`out_header.error`", so the buffer is
`fuse_out_header { len: 16, error: -errno, unique }`. -/
def replyErrorData (errno : Nat) (r : Request) : List Nat :=
  serializeOutHeader
    { len := FUSE_OUT_HEADER_SIZE % 2 ^ 32
      error := -(errno : Int)
      unique := r.unique }

/-! ## Inbound header and the read-loop step (`session.rs` lines 284-311) -/

/-- The inbound wire header of `abi.rs` (`fuse_in_header`), 40 bytes. -/
structure fuse_in_header where
  len : Nat
  opcode : Nat
  unique : Nat
  nodeid : Nat
  uid : Nat
  gid : Nat
  pid : Nat
  padding : Nat
deriving Repr, DecidableEq

/-- `FUSE_IN_HEADER_SIZE`: compile-time size of `fuse_in_header`. -/
def FUSE_IN_HEADER_SIZE : Nat := 40

/-- `BINARY.deserialize::<fuse_in_header>` on the read buffer: reads the
eight little-endian fields, failing when fewer than 40 bytes arrived
(`bincode` ignores trailing bytes). -/
def deserializeInHeader (l : List Nat) : Option fuse_in_header :=
  if l.length < FUSE_IN_HEADER_SIZE then none
  else some
    { len := decLE (l.take 4)
      opcode := decLE ((l.drop 4).take 4)
      unique := decLE ((l.drop 8).take 8)
      nodeid := decLE ((l.drop 16).take 8)
      uid := decLE ((l.drop 24).take 4)
      gid := decLE ((l.drop 28).take 4)
      pid := decLE ((l.drop 32).take 4)
      padding := decLE ((l.drop 36).take 4) }

/-- `Request::from(&in_header)`. -/
def requestFrom (h : fuse_in_header) : Request :=
  { unique := h.unique, uid := h.uid, gid := h.gid, pid := h.pid }

/-- Modelled from the spec: the opcode numbers `fuse_opcode::try_from`
accepts, i.e. the spec's closed opcode universe with the Linux FUSE ABI
values (`FUSE_LOOKUP = 1` … `FUSE_COPY_FILE_RANGE = 47`; 7, 19 and 39
are not part of the enum). -/
def knownOpcodes : List Nat :=
  [1, 2, 3, 4, 5, 6, 8, 9, 10, 11, 12, 13, 14, 15, 16, 17, 18, 20, 21, 22,
   23, 24, 25, 26, 27, 28, 29, 30, 31, 32, 33, 34, 35, 36, 37, 38, 40, 41,
   42, 43, 44, 45, 46, 47]

/-- Outcome of the read-loop step up to opcode resolution
(`session.rs` lines 284-311): a bad header is logged and skipped, an
unknown opcode gets an `ENOSYS` error reply enqueued and the loop
continues, a known opcode proceeds to per-opcode dispatch with the
request record and the body slice. -/
inductive HeaderStage where
  | badHeader
  | unknownOpcode (reply : List Nat)
  | known (opcode : Nat) (request : Request) (body : List Nat)
deriving Repr, DecidableEq

/-- The read-loop step of `Session::dispatch` from `deserialize` to the
body slicing: `data = &data[FUSE_IN_HEADER_SIZE..]` then
`data = &data[..in_header.len - FUSE_IN_HEADER_SIZE]`. -/
def dispatchHeaderStage (data : List Nat) : HeaderStage :=
  match deserializeInHeader data with
  | none => .badHeader
  | some h =>
    let request := requestFrom h
    if h.opcode ∈ knownOpcodes then
      .known h.opcode request ((data.drop FUSE_IN_HEADER_SIZE).take
        (h.len - FUSE_IN_HEADER_SIZE))
    else
      .unknownOpcode (replyErrorData ENOSYS request)

/-- C8: a request whose `in_header.opcode` is outside the known opcode
set makes the session enqueue a header-only reply that decodes to
`{ len = 16, error = -ENOSYS, unique = in_header.unique }`, and the
read loop continues (no termination outcome exists on this branch). -/
theorem C8_unknown_opcode_enosys (data : List Nat) (h : fuse_in_header)
    (hdes : deserializeInHeader data = some h)
    (hop : h.opcode ∉ knownOpcodes)
    (hbytes : ∀ b ∈ data, b < 256) :
    dispatchHeaderStage data = .unknownOpcode (replyErrorData ENOSYS (requestFrom h)) ∧
    (replyErrorData ENOSYS (requestFrom h)).length = 16 ∧
    decodeOutHeader (replyErrorData ENOSYS (requestFrom h)) =
      { len := 16, error := -(ENOSYS : Int), unique := h.unique } := by
  have hstage : dispatchHeaderStage data =
      .unknownOpcode (replyErrorData ENOSYS (requestFrom h)) := by
    unfold dispatchHeaderStage
    rw [hdes]
    simp [hop]
  refine ⟨hstage, serializeOutHeader_length _, ?_⟩
  have huniq : h.unique < 2 ^ 64 := by
    have : h.unique = decLE ((data.drop 8).take 8) := by
      unfold deserializeInHeader at hdes
      by_cases hl : data.length < FUSE_IN_HEADER_SIZE
      · simp [hl] at hdes
      · simp [hl] at hdes
        rw [← hdes]
    have hlen40 : ¬data.length < FUSE_IN_HEADER_SIZE := by
      intro hc
      unfold deserializeInHeader at hdes
      simp [hc] at hdes
    have hsub : ∀ b ∈ (data.drop 8).take 8, b < 256 := fun b hb =>
      hbytes b (List.mem_of_mem_drop (List.mem_of_mem_take hb))
    have hlt := decLE_lt _ hsub
    have hlen8 : ((data.drop 8).take 8).length = 8 := by
      rw [List.length_take, List.length_drop]
      unfold FUSE_IN_HEADER_SIZE at hlen40
      omega
    rw [hlen8] at hlt
    rw [this]
    calc decLE ((data.drop 8).take 8) < 256 ^ 8 := hlt
    _ = 2 ^ 64 := by norm_num
  have := decodeOutHeader_round
    { len := FUSE_OUT_HEADER_SIZE % 2 ^ 32
      error := -(ENOSYS : Int)
      unique := (requestFrom h).unique } [] (by norm_num [FUSE_OUT_HEADER_SIZE])
    (by norm_num [ENOSYS]) (by norm_num [ENOSYS]) huniq
  rw [List.append_nil] at this
  unfold replyErrorData
  rw [this]
  simp [requestFrom, FUSE_OUT_HEADER_SIZE]

/-- Witness for C8 at the spec's S1 scenario: a 40-byte request with
`opcode = 0xDEADBEEF` and `unique = 7`. -/
theorem C8_unknown_opcode_enosys_witness :
    deserializeInHeader
      (encLE 4 40 ++ encLE 4 0xDEADBEEF ++ encLE 8 7 ++ encLE 8 0 ++
        encLE 4 0 ++ encLE 4 0 ++ encLE 4 0 ++ encLE 4 0) =
      some { len := 40, opcode := 0xDEADBEEF, unique := 7, nodeid := 0,
             uid := 0, gid := 0, pid := 0, padding := 0 } ∧
    (0xDEADBEEF : Nat) ∉ knownOpcodes ∧
    decodeOutHeader (replyErrorData ENOSYS
      (requestFrom { len := 40, opcode := 0xDEADBEEF, unique := 7, nodeid := 0,
                     uid := 0, gid := 0, pid := 0, padding := 0 })) =
      { len := 16, error := -(ENOSYS : Int), unique := 7 } :=
  ⟨by decide, by decide,
    (C8_unknown_opcode_enosys
      (encLE 4 40 ++ encLE 4 0xDEADBEEF ++ encLE 8 7 ++ encLE 8 0 ++
        encLE 4 0 ++ encLE 4 0 ++ encLE 4 0 ++ encLE 4 0)
      { len := 40, opcode := 0xDEADBEEF, unique := 7, nodeid := 0,
        uid := 0, gid := 0, pid := 0, padding := 0 }
      (by decide) (by decide) (by decide)).2.2⟩

/-! ## Read-error branch of the dispatch loop (`session.rs` lines 253-275) -/

/-- How `Session::dispatch` leaves its loop. -/
inductive SessionExit where
  | success
  | failure
deriving Repr, DecidableEq

/-- The `Err` branch of `fuse_connection.read`: on `ENODEV` the handler's
`destroy` runs with a zeroed request and the loop returns `Ok(())`; any
other error (including one with no raw OS errno) returns `Err`.  The
first component lists the `destroy` calls made. -/
def readErrorStep (rawOsError : Option Nat) : List Request × SessionExit :=
  match rawOsError with
  | some errno =>
    if errno = ENODEV then
      ([{ unique := 0, uid := 0, gid := 0, pid := 0 }], .success)
    else ([], .failure)
  | none => ([], .failure)

/-- C6: a read failing with `ENODEV` calls `destroy` exactly once with
the request record `{unique: 0, uid: 0, gid: 0, pid: 0}` and ends the
session with success; any other read error ends the session with
failure without calling `destroy`. -/
theorem C6_enodev_destroy (rawOsError : Option Nat) :
    (rawOsError = some ENODEV →
      readErrorStep rawOsError =
        ([{ unique := 0, uid := 0, gid := 0, pid := 0 }], .success)) ∧
    (rawOsError ≠ some ENODEV →
      readErrorStep rawOsError = ([], .failure)) := by
  constructor
  · intro h
    subst h
    simp [readErrorStep]
  · intro h
    match rawOsError with
    | none => rfl
    | some errno =>
      have : errno ≠ ENODEV := fun hc => h (by rw [hc])
      simp [readErrorStep, this]

/-- Witness for C6 at `ENODEV` (19) and at `EIO` (5). -/
theorem C6_enodev_destroy_witness :
    readErrorStep (some 19) =
      ([{ unique := 0, uid := 0, gid := 0, pid := 0 }], .success) ∧
    readErrorStep (some 5) = ([], .failure) :=
  ⟨(C6_enodev_destroy (some 19)).1 (by decide),
   (C6_enodev_destroy (some 5)).2 (by decide)⟩

/-! ## Reply pump (`Session::reply_fuse`, `session.rs` lines 220-244)

The pump drains the channel and writes each buffer; a failed write whose
`ErrorKind` is `NotFound` — the kind `ENOENT` maps to — is logged and
skipped, any other failure returns the error.  The queue is modelled as
the list of dequeued buffers paired with their device-write outcome
(`none` = write succeeded, `some errno` = write failed). -/

/-- How the pump ends: channel drained, or a fatal write error. -/
inductive PumpExit where
  | closed
  | failed (errno : Nat)
deriving Repr, DecidableEq

/-- `Session::reply_fuse`: returns the buffers whose write was attempted
and the pump's exit. -/
def replyFuse : List (List Nat × Option Nat) → List (List Nat) × PumpExit
  | [] => ([], .closed)
  | (buf, none) :: rest =>
    ((replyFuse rest).1.cons buf, (replyFuse rest).2)
  | (buf, some errno) :: rest =>
    if errno = ENOENT then ((replyFuse rest).1.cons buf, (replyFuse rest).2)
    else ([buf], .failed errno)

/-- C7: an `ENOENT` write failure is swallowed — the pump goes on to
process the remaining queue exactly as it would have, so the next
dequeued buffer is written and the session does not terminate because of
it; any other write error stops the pump with failure, the rest of the
queue untouched. -/
theorem C7_pump_enoent_swallowed (buf : List Nat)
    (rest : List (List Nat × Option Nat)) (errno : Nat) :
    (replyFuse ((buf, some ENOENT) :: rest) =
      ((replyFuse rest).1.cons buf, (replyFuse rest).2)) ∧
    (errno ≠ ENOENT →
      replyFuse ((buf, some errno) :: rest) = ([buf], .failed errno)) := by
  constructor
  · simp [replyFuse]
  · intro h
    simp [replyFuse, h]

/-- Witness for C7: a queue where the first write fails with `ENOENT`
and the second succeeds — the second buffer is still written and the
pump ends with the channel closed; and a queue failing with `EIO`. -/
theorem C7_pump_enoent_swallowed_witness :
    replyFuse ([([1], some ENOENT), ([2], none)]) = ([[1], [2]], .closed) ∧
    replyFuse ([([1], some 5), ([2], none)]) = ([[1]], .failed 5) := by
  constructor
  · rw [(C7_pump_enoent_swallowed [1] [([2], none)] 5).1]
    decide
  · exact (C7_pump_enoent_swallowed [1] [([2], none)] 5).2 (by decide)

/-! ## READ reply truncation (`session.rs` lines 1440-1486) -/

/-- The reply buffer the `FUSE_READ` task builds from the handler's
payload: truncate to the requested `size` when longer, then prepend
`fuse_out_header { len: 16 + payload, error: 0, unique }`. -/
def readReplyEncode (unique size : Nat) (payload : List Nat) : List Nat :=
  let reply_data := if payload.length > size then payload.take size else payload
  serializeOutHeader
    { len := (FUSE_OUT_HEADER_SIZE + reply_data.length) % 2 ^ 32
      error := 0
      unique := unique }
    ++ reply_data

/-- C9: a handler payload longer than the requested `size` is emitted
truncated to exactly `size` bytes with `out_header.len = 16 + size`; a
payload of at most `size` bytes is emitted unchanged with
`out_header.len = 16 +` its length.  `error` is 0 and `unique` is
echoed. -/
theorem C9_read_truncation (unique size : Nat) (payload : List Nat)
    (huniq : unique < 2 ^ 64) (hfit : 16 + min size payload.length < 2 ^ 32) :
    ((readReplyEncode unique size payload).drop 16 =
      if payload.length > size then payload.take size else payload) ∧
    (decodeOutHeader (readReplyEncode unique size payload)).len =
      16 + min size payload.length ∧
    (decodeOutHeader (readReplyEncode unique size payload)).error = 0 ∧
    (decodeOutHeader (readReplyEncode unique size payload)).unique = unique := by
  have hdatalen :
      (if payload.length > size then payload.take size else payload).length =
        min size payload.length := by
    split
    · simp [List.length_take]
    · simp
      omega
  have hlen : (FUSE_OUT_HEADER_SIZE +
      (if payload.length > size then payload.take size else payload).length) % 2 ^ 32 =
      16 + min size payload.length := by
    rw [hdatalen]
    exact Nat.mod_eq_of_lt (by unfold FUSE_OUT_HEADER_SIZE; omega)
  have hdrop : (readReplyEncode unique size payload).drop 16 =
      if payload.length > size then payload.take size else payload := by
    unfold readReplyEncode
    exact List.drop_left' (serializeOutHeader_length _)
  have hdec : decodeOutHeader (readReplyEncode unique size payload) =
      { len := (FUSE_OUT_HEADER_SIZE +
          (if payload.length > size then payload.take size else payload).length) % 2 ^ 32
        error := 0
        unique := unique } := by
    unfold readReplyEncode
    exact decodeOutHeader_round _ _ (Nat.mod_lt _ (by norm_num)) (by norm_num)
      (by norm_num) huniq
  refine ⟨hdrop, ?_, by rw [hdec], by rw [hdec]⟩
  rw [hdec]
  exact hlen

/-- Witness for C9: `size = 2`, five payload bytes — the emitted body is
the first two bytes and `len = 18`. -/
theorem C9_read_truncation_witness :
    (readReplyEncode 9 2 [10, 11, 12, 13, 14]).drop 16 =
      (if ([10, 11, 12, 13, 14] : List Nat).length > 2 then
        ([10, 11, 12, 13, 14] : List Nat).take 2 else [10, 11, 12, 13, 14]) ∧
    (decodeOutHeader (readReplyEncode 9 2 [10, 11, 12, 13, 14])).len = 18 :=
  ⟨(C9_read_truncation 9 2 [10, 11, 12, 13, 14] (by decide) (by decide)).1,
   (C9_read_truncation 9 2 [10, 11, 12, 13, 14] (by decide) (by decide)).2.1⟩

/-! ## FUSE_READDIR guard (`session.rs` lines 2163-2185) -/

/-- `fuse_read_in` of `abi.rs` (kernel layout: `fh: u64, offset: u64,
size: u32, read_flags: u32, lock_owner: u64, flags: u32,
padding: u32`), 40 bytes. -/
structure fuse_read_in where
  fh : Nat
  offset : Nat
  size : Nat
  read_flags : Nat
  lock_owner : Nat
  flags : Nat
  padding : Nat
deriving Repr, DecidableEq

/-- `FUSE_READ_IN_SIZE`. -/
def FUSE_READ_IN_SIZE : Nat := 40

/-- `BINARY.deserialize::<fuse_read_in>` on the body slice. -/
def deserializeReadIn (l : List Nat) : Option fuse_read_in :=
  if l.length < FUSE_READ_IN_SIZE then none
  else some
    { fh := decLE (l.take 8)
      offset := decLE ((l.drop 8).take 8)
      size := decLE ((l.drop 16).take 4)
      read_flags := decLE ((l.drop 20).take 4)
      lock_owner := decLE ((l.drop 24).take 8)
      flags := decLE ((l.drop 32).take 4)
      padding := decLE ((l.drop 36).take 4) }

/-- Outcome of the `FUSE_READDIR` arm before the handler runs: an error
reply enqueued via `reply_error`, or the `readdir` handler invoked with
the decoded `fuse_read_in`. -/
inductive ReaddirStage where
  | replyError (errno : Nat)
  | invoke (readIn : fuse_read_in)
deriving Repr, DecidableEq

/-- The head of the `FUSE_READDIR` arm: with `force_readdir_plus` set it
replies `ENOSYS` at once; otherwise a body that fails to decode replies
`EINVAL`, and a decoded one reaches the handler. -/
def readdirBranch (force_readdir_plus : Bool) (body : List Nat) : ReaddirStage :=
  if force_readdir_plus then .replyError ENOSYS
  else
    match deserializeReadIn body with
    | none => .replyError EINVAL
    | some readIn => .invoke readIn

/-- C10: with the `force_readdir_plus` mount option set, every
`FUSE_READDIR` request is answered with an `ENOSYS` error reply and the
handler's `readdir` is never reached (the outcome is never `invoke`). -/
theorem C10_force_readdir_plus_enosys (body : List Nat) :
    readdirBranch true body = .replyError ENOSYS ∧
    ∀ readIn, readdirBranch true body ≠ .invoke readIn := by
  refine ⟨rfl, fun readIn h => ?_⟩
  simp [readdirBranch] at h

/-! ## WRITE / SETXATTR / NOTIFY_REPLY payload-size checks
(`session.rs` lines 1489-1517, 1721-1750, 2827-2857) -/

/-- `fuse_write_in` of `abi.rs` (kernel layout: `fh: u64, offset: u64,
size: u32, write_flags: u32, lock_owner: u64, flags: u32,
padding: u32`), 40 bytes. -/
structure fuse_write_in where
  fh : Nat
  offset : Nat
  size : Nat
  write_flags : Nat
  lock_owner : Nat
  flags : Nat
  padding : Nat
deriving Repr, DecidableEq

/-- `FUSE_WRITE_IN_SIZE`. -/
def FUSE_WRITE_IN_SIZE : Nat := 40

/-- `BINARY.deserialize::<fuse_write_in>` on the body slice. -/
def deserializeWriteIn (l : List Nat) : Option fuse_write_in :=
  if l.length < FUSE_WRITE_IN_SIZE then none
  else some
    { fh := decLE (l.take 8)
      offset := decLE ((l.drop 8).take 8)
      size := decLE ((l.drop 16).take 4)
      write_flags := decLE ((l.drop 20).take 4)
      lock_owner := decLE ((l.drop 24).take 8)
      flags := decLE ((l.drop 32).take 4)
      padding := decLE ((l.drop 36).take 4) }

/-- `fuse_setxattr_in` of `abi.rs` (`size: u32, flags: u32`), 8 bytes. -/
structure fuse_setxattr_in where
  size : Nat
  flags : Nat
deriving Repr, DecidableEq

/-- `FUSE_SETXATTR_IN_SIZE`. -/
def FUSE_SETXATTR_IN_SIZE : Nat := 8

/-- `BINARY.deserialize::<fuse_setxattr_in>` on the body slice. -/
def deserializeSetxattrIn (l : List Nat) : Option fuse_setxattr_in :=
  if l.length < FUSE_SETXATTR_IN_SIZE then none
  else some
    { size := decLE (l.take 4)
      flags := decLE ((l.drop 4).take 4) }

/-- `fuse_notify_retrieve_in` of `abi.rs` (kernel layout: `dummy1: u64,
offset: u64, size: u32, dummy2: u32, dummy3: u64, dummy4: u64`),
40 bytes. -/
structure fuse_notify_retrieve_in where
  dummy1 : Nat
  offset : Nat
  size : Nat
  dummy2 : Nat
  dummy3 : Nat
  dummy4 : Nat
deriving Repr, DecidableEq

/-- `FUSE_NOTIFY_RETRIEVE_IN_SIZE`. -/
def FUSE_NOTIFY_RETRIEVE_IN_SIZE : Nat := 40

/-- `BINARY.deserialize::<fuse_notify_retrieve_in>` on the body slice. -/
def deserializeNotifyRetrieveIn (l : List Nat) : Option fuse_notify_retrieve_in :=
  if l.length < FUSE_NOTIFY_RETRIEVE_IN_SIZE then none
  else some
    { dummy1 := decLE (l.take 8)
      offset := decLE ((l.drop 8).take 8)
      size := decLE ((l.drop 16).take 4)
      dummy2 := decLE ((l.drop 20).take 4)
      dummy3 := decLE ((l.drop 24).take 8)
      dummy4 := decLE ((l.drop 32).take 8) }

/-- Modelled from the spec: `get_first_null_position` of `helper.rs`
(absent from the analysed sources) — names are "parsed by scanning for
the first 0x00". -/
def getFirstNullPosition (l : List Nat) : Option Nat :=
  l.findIdx? (· = 0)

/-- Outcome of the `FUSE_WRITE` arm before the handler runs. -/
inductive WriteStage where
  | replyEinval
  | invoke (writeIn : fuse_write_in) (payload : List Nat)
deriving Repr, DecidableEq

/-- The `FUSE_WRITE` arm up to the handler call: decode failure or a
trailing payload whose length differs from `write_in.size` replies
`EINVAL`; otherwise the handler gets the payload. -/
def writeBranch (body : List Nat) : WriteStage :=
  match deserializeWriteIn body with
  | none => .replyEinval
  | some write_in =>
    let data := body.drop FUSE_WRITE_IN_SIZE
    if write_in.size ≠ data.length then .replyEinval
    else .invoke write_in data

/-- Outcome of the `FUSE_SETXATTR` arm before the handler runs. -/
inductive SetxattrStage where
  | replyEinval
  | invoke (setxattrIn : fuse_setxattr_in) (name value : List Nat)
deriving Repr, DecidableEq

/-- The `FUSE_SETXATTR` arm up to the handler call: decode failure, a
trailing slice whose length differs from `setxattr_in.size`, or a
missing NUL for name or value replies `EINVAL`. -/
def setxattrBranch (body : List Nat) : SetxattrStage :=
  match deserializeSetxattrIn body with
  | none => .replyEinval
  | some setxattr_in =>
    let data := body.drop FUSE_SETXATTR_IN_SIZE
    if setxattr_in.size ≠ data.length then .replyEinval
    else
      match getFirstNullPosition data with
      | none => .replyEinval
      | some index =>
        let name := data.take index
        let data := data.drop (index + 1)
        match getFirstNullPosition data with
        | none => .replyEinval
        | some index₂ => .invoke setxattr_in name (data.take index₂)

/-- Outcome of the `FUSE_NOTIFY_REPLY` arm: the request is reply-less;
a decode failure or short payload is dropped with no reply (`continue`),
otherwise `notify_reply` gets the payload truncated to `size`. -/
inductive NotifyReplyStage where
  | dropRequest
  | invoke (notifyRetrieveIn : fuse_notify_retrieve_in) (payload : List Nat)
deriving Repr, DecidableEq

/-- The `FUSE_NOTIFY_REPLY` arm up to the handler call (`session.rs`
lines 2827-2873): `data.len() < size` drops the request, otherwise the
first `size` payload bytes reach the handler. -/
def notifyReplyBranch (body : List Nat) : NotifyReplyStage :=
  match deserializeNotifyRetrieveIn body with
  | none => .dropRequest
  | some notify_retrieve_in =>
    let data := body.drop FUSE_NOTIFY_RETRIEVE_IN_SIZE
    if data.length < notify_retrieve_in.size then .dropRequest
    else .invoke notify_retrieve_in (data.take notify_retrieve_in.size)

/-- C3 counterexample: the claim says a NOTIFY_REPLY payload whose
length differs from the record's `size` field gets an `EINVAL` reply and
no handler call.  With `size = 2` and three trailing bytes the handler
IS invoked (with the payload truncated to 2 bytes) and no reply of any
kind is made; with `size = 5` and three trailing bytes the request is
dropped silently, again with no `EINVAL` reply. -/
theorem C3_counterexample_notify_reply :
    (deserializeNotifyRetrieveIn
        (encLE 8 0 ++ encLE 8 0 ++ encLE 4 2 ++ encLE 4 0 ++ encLE 8 0 ++
          encLE 8 0 ++ [7, 8, 9])).map (fun n => n.size) = some 2 ∧
    notifyReplyBranch
        (encLE 8 0 ++ encLE 8 0 ++ encLE 4 2 ++ encLE 4 0 ++ encLE 8 0 ++
          encLE 8 0 ++ [7, 8, 9]) =
      .invoke { dummy1 := 0, offset := 0, size := 2, dummy2 := 0, dummy3 := 0,
                dummy4 := 0 } [7, 8] ∧
    notifyReplyBranch
        (encLE 8 0 ++ encLE 8 0 ++ encLE 4 5 ++ encLE 4 0 ++ encLE 8 0 ++
          encLE 8 0 ++ [7, 8, 9]) = .dropRequest := by
  decide

/-- C3 (amended): for WRITE and SETXATTR a trailing payload whose length
differs from the record's `size` field replies `EINVAL` without invoking
the handler; for NOTIFY_REPLY a payload shorter than `size` is dropped
with no reply at all, and a payload of at least `size` bytes is passed
to the handler truncated to exactly `size` bytes, even when longer. -/
theorem C3_payload_size_checks (body : List Nat) :
    (∀ write_in, deserializeWriteIn body = some write_in →
      write_in.size ≠ (body.drop FUSE_WRITE_IN_SIZE).length →
      writeBranch body = .replyEinval) ∧
    (∀ setxattr_in, deserializeSetxattrIn body = some setxattr_in →
      setxattr_in.size ≠ (body.drop FUSE_SETXATTR_IN_SIZE).length →
      setxattrBranch body = .replyEinval) ∧
    (∀ notify_retrieve_in,
      deserializeNotifyRetrieveIn body = some notify_retrieve_in →
      ((body.drop FUSE_NOTIFY_RETRIEVE_IN_SIZE).length < notify_retrieve_in.size →
        notifyReplyBranch body = .dropRequest) ∧
      (notify_retrieve_in.size ≤ (body.drop FUSE_NOTIFY_RETRIEVE_IN_SIZE).length →
        notifyReplyBranch body =
          .invoke notify_retrieve_in
            ((body.drop FUSE_NOTIFY_RETRIEVE_IN_SIZE).take
              notify_retrieve_in.size))) := by
  refine ⟨?_, ?_, ?_⟩
  · intro write_in hdes hne
    unfold writeBranch
    rw [hdes]
    exact if_pos hne
  · intro setxattr_in hdes hne
    unfold setxattrBranch
    rw [hdes]
    exact if_pos hne
  · intro notify_retrieve_in hdes
    constructor
    · intro hlt
      unfold notifyReplyBranch
      rw [hdes]
      exact if_pos hlt
    · intro hle
      unfold notifyReplyBranch
      rw [hdes]
      exact if_neg (Nat.not_lt_of_le hle)

/-- Witness for C3 (amended) on concrete bodies: a WRITE body whose
`size` field (3) disagrees with its 2-byte payload, a SETXATTR body
whose `size` field (9) disagrees with its 3-byte trailing slice, and a
NOTIFY_REPLY body with `size = 2` and 3 trailing bytes. -/
theorem C3_payload_size_checks_witness :
    writeBranch
        (encLE 8 1 ++ encLE 8 0 ++ encLE 4 3 ++ encLE 4 0 ++ encLE 8 0 ++
          encLE 4 0 ++ encLE 4 0 ++ [5, 6]) = .replyEinval ∧
    setxattrBranch (encLE 4 9 ++ encLE 4 0 ++ [97, 0, 98]) = .replyEinval ∧
    notifyReplyBranch
        (encLE 8 0 ++ encLE 8 0 ++ encLE 4 2 ++ encLE 4 0 ++ encLE 8 0 ++
          encLE 8 0 ++ [7, 8, 9]) =
      .invoke { dummy1 := 0, offset := 0, size := 2, dummy2 := 0, dummy3 := 0,
                dummy4 := 0 } [7, 8] := by
  refine ⟨?_, ?_, ?_⟩
  · exact (C3_payload_size_checks
      (encLE 8 1 ++ encLE 8 0 ++ encLE 4 3 ++ encLE 4 0 ++ encLE 8 0 ++
        encLE 4 0 ++ encLE 4 0 ++ [5, 6])).1
      { fh := 1, offset := 0, size := 3, write_flags := 0, lock_owner := 0,
        flags := 0, padding := 0 } (by decide) (by decide)
  · exact (C3_payload_size_checks (encLE 4 9 ++ encLE 4 0 ++ [97, 0, 98])).2.1
      { size := 9, flags := 0 } (by decide) (by decide)
  · have h := ((C3_payload_size_checks
      (encLE 8 0 ++ encLE 8 0 ++ encLE 4 2 ++ encLE 4 0 ++ encLE 8 0 ++
        encLE 8 0 ++ [7, 8, 9])).2.2
      { dummy1 := 0, offset := 0, size := 2, dummy2 := 0, dummy3 := 0,
        dummy4 := 0 } (by decide)).2 (by decide)
    rw [h]
    decide

/-! ## GETXATTR / LISTXATTR reply encoding (`session.rs` lines 1874-1917
and 1962-2005) -/

/-- `ReplyXAttr` of `reply.rs`: the handler's xattr result, either a
size probe or raw data. -/
inductive ReplyXAttr where
  | Size (size : Nat)
  | Data (data : List Nat)
deriving Repr, DecidableEq

/-- `FUSE_GETXATTR_OUT_SIZE` (`size: u32, padding: u32`). -/
def FUSE_GETXATTR_OUT_SIZE : Nat := 8

/-- The reply buffer the `FUSE_GETXATTR` task builds from the handler's
`ReplyXAttr` (`session.rs` lines 1874-1917): a size probe becomes
`fuse_getxattr_out { size, padding: 0 }` under a header whose `error`
field is set to `libc::ERANGE` (the positive value, as written); data
becomes the raw bytes under an `error = 0` header. -/
def getxattrReplyEncode (unique : Nat) : ReplyXAttr → List Nat
  | .Size size =>
    serializeOutHeader
      { len := (FUSE_OUT_HEADER_SIZE + FUSE_GETXATTR_OUT_SIZE) % 2 ^ 32
        error := (ERANGE : Int)
        unique := unique }
      ++ encLE 4 size ++ encLE 4 0
  | .Data xattr_data =>
    serializeOutHeader
      { len := (FUSE_OUT_HEADER_SIZE + xattr_data.length) % 2 ^ 32
        error := 0
        unique := unique }
      ++ xattr_data

/-- The reply buffer the `FUSE_LISTXATTR` task builds from the handler's
`ReplyXAttr` (`session.rs` lines 1962-2005); byte-for-byte the same
construction as the GETXATTR one. -/
def listxattrReplyEncode (unique : Nat) : ReplyXAttr → List Nat
  | .Size size =>
    serializeOutHeader
      { len := (FUSE_OUT_HEADER_SIZE + FUSE_GETXATTR_OUT_SIZE) % 2 ^ 32
        error := (ERANGE : Int)
        unique := unique }
      ++ encLE 4 size ++ encLE 4 0
  | .Data xattr_data =>
    serializeOutHeader
      { len := (FUSE_OUT_HEADER_SIZE + xattr_data.length) % 2 ^ 32
        error := 0
        unique := unique }
      ++ xattr_data

/-- C4: the claim (and the spec's own reply convention) requires the
size-probe reply's `error` field to be the NEGATIVE errno `-ERANGE`;
the code writes `libc::ERANGE` itself, so the emitted header carries
`+34`, not `-34`, for both GETXATTR and LISTXATTR.  The body
`{ size, padding = 0 }` and the data-reply branch (`error = 0`, raw
bytes) do match the claim. -/
theorem C4_xattr_erange_sign :
    (decodeOutHeader (getxattrReplyEncode 5 (.Size 10))).error = 34 ∧
    (decodeOutHeader (listxattrReplyEncode 5 (.Size 10))).error = 34 ∧
    (34 : Int) ≠ -(ERANGE : Int) ∧
    (getxattrReplyEncode 5 (.Size 10)).drop 16 = encLE 4 10 ++ encLE 4 0 ∧
    (decodeOutHeader (getxattrReplyEncode 5 (.Size 10))).len = 24 ∧
    (decodeOutHeader (getxattrReplyEncode 5 (.Data [1, 2, 3]))).error = 0 ∧
    (getxattrReplyEncode 5 (.Data [1, 2, 3])).drop 16 = [1, 2, 3] := by
  decide

/-! ## READDIR entry emission (`session.rs` lines 2208-2241)

The directory-entry loop of the `FUSE_READDIR` arm: for each entry the
24-byte `fuse_dirent` record is serialized, the name bytes appended,
then zero padding to the next multiple of 8; an entry whose pre-padding
size would overflow the kernel-requested `size` stops the loop and is
omitted.  `get_padding_size` and `mode_from_kind_and_perm` live in
`helper.rs` (absent from the analysed sources). -/

/-- Modelled from the spec: `get_padding_size` of `helper.rs` — zero
padding to the next multiple of 8 bytes. -/
def get_padding_size (s : Nat) : Nat := (8 - s % 8) % 8

/-- `FileType` of the handler facade (the entry's kind). -/
inductive FileType where
  | NamedPipe
  | CharDevice
  | BlockDevice
  | Directory
  | RegularFile
  | Symlink
  | Socket
deriving Repr, DecidableEq

/-- Modelled from the spec: `mode_from_kind_and_perm` of `helper.rs` —
"combining the entry's kind and permissions in the standard POSIX
layout" (`S_IFIFO` … `S_IFSOCK` ORed with the permission bits). -/
def mode_from_kind_and_perm (kind : FileType) (perm : Nat) : Nat :=
  (match kind with
    | .NamedPipe => 0o010000
    | .CharDevice => 0o020000
    | .Directory => 0o040000
    | .BlockDevice => 0o060000
    | .RegularFile => 0o100000
    | .Symlink => 0o120000
    | .Socket => 0o140000) ||| perm

/-- `DirectoryEntry` of `reply.rs`: inode, offset index, kind, name. -/
structure DirectoryEntry where
  inode : Nat
  index : Nat
  kind : FileType
  name : List Nat
deriving Repr, DecidableEq

/-- `FUSE_DIRENT_SIZE` (`ino: u64, off: u64, namelen: u32, type: u32`). -/
def FUSE_DIRENT_SIZE : Nat := 24

/-- One loop iteration's bytes: the serialized `fuse_dirent`
(`ino: entry.inode, off: entry.index, namelen: name.len(),
type: mode_from_kind_and_perm(entry.kind, 0) >> 12`), the name bytes,
then `get_padding_size` zero bytes. -/
def serializeDirent (e : DirectoryEntry) : List Nat :=
  encLE 8 e.inode ++
    (encLE 8 e.index ++
      (encLE 4 e.name.length ++
        (encLE 4 (mode_from_kind_and_perm e.kind 0 >>> 12) ++
          (e.name ++
            List.replicate (get_padding_size (FUSE_DIRENT_SIZE + e.name.length)) 0))))

/-- The `while let Some(entry) = ….next()` loop of the `FUSE_READDIR`
arm, accumulating `entry_data`: an entry whose
`entry_data.len() + FUSE_DIRENT_SIZE + name.len()` exceeds `max_size`
breaks the loop. -/
def readdirEncodeLoop (max_size : Nat) : List Nat → List DirectoryEntry → List Nat
  | entry_data, [] => entry_data
  | entry_data, e :: es =>
    let dir_entry_size := FUSE_DIRENT_SIZE + e.name.length
    if entry_data.length + dir_entry_size > max_size then entry_data
    else readdirEncodeLoop max_size (entry_data ++ serializeDirent e) es

/-- The READDIR reply body built from the handler's entry sequence. -/
def readdirEncode (max_size : Nat) (entries : List DirectoryEntry) : List Nat :=
  readdirEncodeLoop max_size [] entries

/-- Spec-side greedy prefix: the entries the loop emits, tracking the
bytes already emitted (`acc`); the first entry whose pre-padding size
added to `acc` exceeds `max_size` ends the list and is omitted. -/
def emittedEntries (max_size : Nat) : Nat → List DirectoryEntry → List DirectoryEntry
  | _, [] => []
  | acc, e :: es =>
    let dir_entry_size := FUSE_DIRENT_SIZE + e.name.length
    if acc + dir_entry_size > max_size then []
    else e :: emittedEntries max_size
      (acc + dir_entry_size + get_padding_size dir_entry_size) es

/-- A `fuse_dirent` record as a reader recovers it from the wire. -/
structure WireDirent where
  ino : Nat
  off : Nat
  type : Nat
  name : List Nat
deriving Repr, DecidableEq

/-- The wire record an entry is emitted as (u64/u32 wrap-around made
explicit). -/
def direntView (e : DirectoryEntry) : WireDirent :=
  { ino := e.inode % 2 ^ 64
    off := e.index % 2 ^ 64
    type := (mode_from_kind_and_perm e.kind 0 >>> 12) % 2 ^ 32
    name := e.name }

/-- The reader of the FUSE dirent stream: peel a 24-byte `fuse_dirent`,
read `namelen` name bytes, skip the padding to the next multiple of 8,
repeat.  `fuel` bounds the recursion; `parseReaddirBody` supplies the
buffer length, which suffices because every step consumes at least 24
bytes. -/
def parseDirents : Nat → List Nat → List WireDirent
  | 0, _ => []
  | fuel + 1, bytes =>
    if bytes.length < FUSE_DIRENT_SIZE then []
    else
      let ino := decLE (bytes.take 8)
      let bytes₁ := bytes.drop 8
      let off := decLE (bytes₁.take 8)
      let bytes₂ := bytes₁.drop 8
      let namelen := decLE (bytes₂.take 4)
      let type := decLE ((bytes₂.drop 4).take 4)
      let name := (bytes₂.drop 8).take namelen
      { ino := ino, off := off, type := type, name := name } ::
        parseDirents fuel
          ((bytes₂.drop 8).drop (namelen + get_padding_size (FUSE_DIRENT_SIZE + namelen)))

/-- Parse a whole READDIR body. -/
def parseReaddirBody (bytes : List Nat) : List WireDirent :=
  parseDirents bytes.length bytes

theorem serializeDirent_length (e : DirectoryEntry) :
    (serializeDirent e).length =
      FUSE_DIRENT_SIZE + e.name.length +
        get_padding_size (FUSE_DIRENT_SIZE + e.name.length) := by
  simp [serializeDirent, FUSE_DIRENT_SIZE]
  omega

theorem serializeDirent_length_mod_eight (e : DirectoryEntry) :
    (serializeDirent e).length % 8 = 0 := by
  rw [serializeDirent_length]
  unfold get_padding_size FUSE_DIRENT_SIZE
  omega

theorem readdirEncodeLoop_eq (max_size : Nat) (es : List DirectoryEntry) :
    ∀ buf : List Nat, readdirEncodeLoop max_size buf es =
      buf ++ ((emittedEntries max_size buf.length es).map serializeDirent).join := by
  induction es with
  | nil => intro buf; simp [readdirEncodeLoop, emittedEntries]
  | cons e es ih =>
    intro buf
    unfold readdirEncodeLoop emittedEntries
    by_cases hc : buf.length + (FUSE_DIRENT_SIZE + e.name.length) > max_size
    · rw [if_pos hc, if_pos hc]
      simp
    · rw [if_neg hc, if_neg hc]
      rw [ih (buf ++ serializeDirent e)]
      have harg : (buf ++ serializeDirent e).length =
          buf.length + (FUSE_DIRENT_SIZE + e.name.length) +
            get_padding_size (FUSE_DIRENT_SIZE + e.name.length) := by
        rw [List.length_append, serializeDirent_length]
        omega
      rw [harg]
      simp [List.append_assoc]

theorem emittedEntries_name_le (max_size : Nat) (es : List DirectoryEntry) :
    ∀ acc, ∀ e ∈ emittedEntries max_size acc es,
      FUSE_DIRENT_SIZE + e.name.length ≤ max_size := by
  induction es with
  | nil => intro acc e he; simp [emittedEntries] at he
  | cons a es ih =>
    intro acc e he
    unfold emittedEntries at he
    by_cases hc : acc + (FUSE_DIRENT_SIZE + a.name.length) > max_size
    · rw [if_pos hc] at he
      simp at he
    · rw [if_neg hc] at he
      rcases List.mem_cons.mp he with h | h
      · subst h
        omega
      · exact ih _ e h

theorem parseDirents_join (L : List DirectoryEntry)
    (hsmall : ∀ e ∈ L, e.name.length < 2 ^ 32) :
    ∀ fuel, ((L.map serializeDirent).join).length ≤ fuel →
      parseDirents fuel ((L.map serializeDirent).join) = L.map direntView := by
  induction L with
  | nil =>
    intro fuel _
    cases fuel <;> simp [parseDirents, FUSE_DIRENT_SIZE]
  | cons e L ih =>
    intro fuel hfuel
    have hename : e.name.length < 2 ^ 32 := hsmall e (List.mem_cons_self e L)
    have hLnames : ∀ x ∈ L, x.name.length < 2 ^ 32 := fun x hx =>
      hsmall x (List.mem_cons_of_mem e hx)
    simp only [List.map_cons, List.join_cons] at hfuel ⊢
    have hsd := serializeDirent_length e
    have hlen : (serializeDirent e ++ (L.map serializeDirent).join).length =
        FUSE_DIRENT_SIZE + e.name.length +
          get_padding_size (FUSE_DIRENT_SIZE + e.name.length) +
          ((L.map serializeDirent).join).length := by
      rw [List.length_append, hsd]
    match fuel with
    | 0 =>
      exfalso
      rw [hlen] at hfuel
      unfold FUSE_DIRENT_SIZE at hfuel
      omega
    | fuel + 1 =>
      have h24 : ¬(serializeDirent e ++ (L.map serializeDirent).join).length <
          FUSE_DIRENT_SIZE := by
        rw [hlen]
        unfold FUSE_DIRENT_SIZE
        omega
      have hsplit : serializeDirent e ++ (L.map serializeDirent).join =
          encLE 8 e.inode ++
            (encLE 8 e.index ++
              (encLE 4 e.name.length ++
                (encLE 4 (mode_from_kind_and_perm e.kind 0 >>> 12) ++
                  (e.name ++
                    (List.replicate
                        (get_padding_size (FUSE_DIRENT_SIZE + e.name.length)) 0 ++
                      (L.map serializeDirent).join))))) := by
        simp [serializeDirent, List.append_assoc]
      have htake8 :
          (serializeDirent e ++ (L.map serializeDirent).join).take 8 =
            encLE 8 e.inode := by
        rw [hsplit]
        exact List.take_left' (encLE_length 8 _)
      have hdrop8 :
          (serializeDirent e ++ (L.map serializeDirent).join).drop 8 =
            encLE 8 e.index ++
              (encLE 4 e.name.length ++
                (encLE 4 (mode_from_kind_and_perm e.kind 0 >>> 12) ++
                  (e.name ++
                    (List.replicate
                        (get_padding_size (FUSE_DIRENT_SIZE + e.name.length)) 0 ++
                      (L.map serializeDirent).join)))) := by
        rw [hsplit]
        exact List.drop_left' (encLE_length 8 _)
      have htake8' :
          ((serializeDirent e ++ (L.map serializeDirent).join).drop 8).take 8 =
            encLE 8 e.index := by
        rw [hdrop8]
        exact List.take_left' (encLE_length 8 _)
      have hdrop16 :
          ((serializeDirent e ++ (L.map serializeDirent).join).drop 8).drop 8 =
            encLE 4 e.name.length ++
              (encLE 4 (mode_from_kind_and_perm e.kind 0 >>> 12) ++
                (e.name ++
                  (List.replicate
                      (get_padding_size (FUSE_DIRENT_SIZE + e.name.length)) 0 ++
                    (L.map serializeDirent).join))) := by
        rw [hdrop8]
        exact List.drop_left' (encLE_length 8 _)
      have htake4 :
          (((serializeDirent e ++ (L.map serializeDirent).join).drop 8).drop 8).take 4 =
            encLE 4 e.name.length := by
        rw [hdrop16]
        exact List.take_left' (encLE_length 4 _)
      have hnamelen : decLE (encLE 4 e.name.length) = e.name.length := by
        rw [decLE_encLE]
        exact Nat.mod_eq_of_lt (by calc e.name.length < 2 ^ 32 := hename
          _ = 256 ^ 4 := by norm_num)
      have hdrop20 :
          ((((serializeDirent e ++ (L.map serializeDirent).join).drop 8).drop 8).drop 4) =
            encLE 4 (mode_from_kind_and_perm e.kind 0 >>> 12) ++
              (e.name ++
                (List.replicate
                    (get_padding_size (FUSE_DIRENT_SIZE + e.name.length)) 0 ++
                  (L.map serializeDirent).join)) := by
        rw [hdrop16]
        exact List.drop_left' (encLE_length 4 _)
      have htype :
          (((((serializeDirent e ++ (L.map serializeDirent).join).drop 8).drop 8).drop 4).take 4) =
            encLE 4 (mode_from_kind_and_perm e.kind 0 >>> 12) := by
        rw [hdrop20]
        exact List.take_left' (encLE_length 4 _)
      have hdrop24 :
          ((((serializeDirent e ++ (L.map serializeDirent).join).drop 8).drop 8).drop 8) =
            e.name ++
              (List.replicate (get_padding_size (FUSE_DIRENT_SIZE + e.name.length)) 0 ++
                (L.map serializeDirent).join) := by
        rw [show (8 : Nat) = 4 + 4 from rfl, ← List.drop_drop, hdrop20]
        exact List.drop_left' (encLE_length 4 _)
      have hname :
          (((((serializeDirent e ++ (L.map serializeDirent).join).drop 8).drop 8).drop 8).take
            e.name.length) = e.name := by
        rw [hdrop24]
        exact List.take_left' rfl
      have htail :
          (((((serializeDirent e ++ (L.map serializeDirent).join).drop 8).drop 8).drop 8).drop
            (e.name.length + get_padding_size (FUSE_DIRENT_SIZE + e.name.length))) =
            (L.map serializeDirent).join := by
        rw [hdrop24, ← List.append_assoc]
        refine List.drop_left' ?_
        simp
      have hfuel' : ((L.map serializeDirent).join).length ≤ fuel := by
        rw [hlen] at hfuel
        unfold FUSE_DIRENT_SIZE at hfuel
        omega
      simp only [parseDirents, if_neg h24]
      rw [htake8, htake8', htake4, hnamelen, htype, hname, hdrop24]
      rw [decLE_encLE, decLE_encLE, decLE_encLE]
      have hhead : ({ ino := e.inode % 256 ^ 8
                      off := e.index % 256 ^ 8
                      type := (mode_from_kind_and_perm e.kind 0 >>> 12) % 256 ^ 4
                      name := e.name } : WireDirent) = direntView e := by
        unfold direntView
        congr 1
      have htail₂ : parseDirents fuel
          (List.drop (e.name.length + get_padding_size (FUSE_DIRENT_SIZE + e.name.length))
            (e.name ++
              (List.replicate (get_padding_size (FUSE_DIRENT_SIZE + e.name.length)) 0 ++
                (L.map serializeDirent).join))) = L.map direntView := by
        rw [show e.name ++
            (List.replicate (get_padding_size (FUSE_DIRENT_SIZE + e.name.length)) 0 ++
              (L.map serializeDirent).join) =
            (e.name ++
              List.replicate (get_padding_size (FUSE_DIRENT_SIZE + e.name.length)) 0) ++
              (L.map serializeDirent).join from by rw [List.append_assoc]]
        rw [List.drop_left' (by simp)]
        exact ih hLnames fuel hfuel'
      rw [htail₂, hhead]

/-- C5: for every entry sequence and kernel-requested size (a `u32`),
the emitted READDIR body is exactly the concatenation of
`fuse_dirent + name + pad` records of the greedy prefix of entries —
the prefix that stops at the first entry whose pre-padding size
(24-byte dirent plus name length) added to the bytes already emitted
would exceed the requested size, omitting that entry entirely; every
record's length is a multiple of 8; and the reader recovers every
emitted entry intact from the body. -/
theorem C5_readdir_entry_roundtrip (entries : List DirectoryEntry) (max_size : Nat)
    (hmax : max_size < 2 ^ 32) :
    readdirEncode max_size entries =
      ((emittedEntries max_size 0 entries).map serializeDirent).join ∧
    (∀ e ∈ emittedEntries max_size 0 entries, (serializeDirent e).length % 8 = 0) ∧
    parseReaddirBody (readdirEncode max_size entries) =
      (emittedEntries max_size 0 entries).map direntView := by
  have henc : readdirEncode max_size entries =
      ((emittedEntries max_size 0 entries).map serializeDirent).join := by
    unfold readdirEncode
    have h := readdirEncodeLoop_eq max_size entries []
    simpa using h
  refine ⟨henc, fun e _ => serializeDirent_length_mod_eight e, ?_⟩
  rw [henc]
  unfold parseReaddirBody
  refine parseDirents_join _ ?_ _ (le_refl _)
  intro e he
  have hle := emittedEntries_name_le max_size entries 0 e he
  unfold FUSE_DIRENT_SIZE at hle
  omega

/-- Witness for C5 at the spec's S4 scenario: requested size 40, names
"a", "bb", "ccc" — only the first entry fits (pre-padding sizes 25, 26,
27; the first record occupies 32 bytes, so the second would need
32 + 26 > 40) and it round-trips intact. -/
theorem C5_readdir_entry_roundtrip_witness :
    (40 : Nat) < 2 ^ 32 ∧
    (readdirEncode 40
        [{ inode := 1, index := 1, kind := .RegularFile, name := [97] },
         { inode := 2, index := 2, kind := .RegularFile, name := [98, 98] },
         { inode := 3, index := 3, kind := .RegularFile, name := [99, 99, 99] }] =
      ((emittedEntries 40 0
        [{ inode := 1, index := 1, kind := .RegularFile, name := [97] },
         { inode := 2, index := 2, kind := .RegularFile, name := [98, 98] },
         { inode := 3, index := 3, kind := .RegularFile, name := [99, 99, 99] }]).map
          serializeDirent).join ∧
    (∀ e ∈ emittedEntries 40 0
        [{ inode := 1, index := 1, kind := .RegularFile, name := [97] },
         { inode := 2, index := 2, kind := .RegularFile, name := [98, 98] },
         { inode := 3, index := 3, kind := .RegularFile, name := [99, 99, 99] }],
      (serializeDirent e).length % 8 = 0) ∧
    parseReaddirBody (readdirEncode 40
        [{ inode := 1, index := 1, kind := .RegularFile, name := [97] },
         { inode := 2, index := 2, kind := .RegularFile, name := [98, 98] },
         { inode := 3, index := 3, kind := .RegularFile, name := [99, 99, 99] }]) =
      (emittedEntries 40 0
        [{ inode := 1, index := 1, kind := .RegularFile, name := [97] },
         { inode := 2, index := 2, kind := .RegularFile, name := [98, 98] },
         { inode := 3, index := 3, kind := .RegularFile, name := [99, 99, 99] }]).map
          direntView) ∧
    emittedEntries 40 0
        [{ inode := 1, index := 1, kind := .RegularFile, name := [97] },
         { inode := 2, index := 2, kind := .RegularFile, name := [98, 98] },
         { inode := 3, index := 3, kind := .RegularFile, name := [99, 99, 99] }] =
      [{ inode := 1, index := 1, kind := .RegularFile, name := [97] }] ∧
    (readdirEncode 40
        [{ inode := 1, index := 1, kind := .RegularFile, name := [97] },
         { inode := 2, index := 2, kind := .RegularFile, name := [98, 98] },
         { inode := 3, index := 3, kind := .RegularFile, name := [99, 99, 99] }]).length =
      32 :=
  ⟨by norm_num,
   C5_readdir_entry_roundtrip
     [{ inode := 1, index := 1, kind := .RegularFile, name := [97] },
      { inode := 2, index := 2, kind := .RegularFile, name := [98, 98] },
      { inode := 3, index := 3, kind := .RegularFile, name := [99, 99, 99] }]
     40 (by norm_num),
   by decide, by decide⟩

end Fuse3
